import Mathlib

/-!
Verification of an order-flow trading bot: a shallow embedding of its
order-book manager, exchange-stream synchronizer, flow analyzer and
signal generator, together with theorems about the embedded code.

Prices, sizes and timestamps are modelled as rationals (`ℚ`); Python
dicts keyed by price are modelled as association lists.
-/

namespace Bot

/-! ## Configuration constants (config.py) -/

def DELTA_WINDOW_SECONDS : ℚ := 5
def ABSORPTION_THRESHOLD : ℚ := 20
def PRICE_MOVEMENT_THRESHOLD : ℚ := 5 / 10000
def LIQUIDITY_SWEEP_MIN_LEVELS : ℕ := 1
def LIQUIDITY_SWEEP_TIME_MS : ℚ := 1000
def COOLDOWN_SECONDS : ℚ := 5
def MIN_DELTA_FLIP : ℚ := 10
def MAX_ORDERBOOK_LEVELS : ℕ := 50
def TRADE_HISTORY_SECONDS : ℚ := 60
def MIN_SWEEP_NOTIONAL : ℚ := 5000
def MIN_ABSORPTION_RATE : ℚ := 1
def MIN_TRADE_CONFIRM_NOTIONAL : ℚ := 1000

/-! ## Order book (order_flow_analyzer_v2.py: OrderFlowAnalyzer.order_book)

The Python code keeps `order_book` as a `SortedDict` from price to a
two-field dict `{'bid': size, 'ask': size}`.  We model the mapping as an
association list of `(price, Level)` pairs; key order is irrelevant to
every operation we verify (maxima/minima are computed explicitly). -/

structure Level where
  bid : ℚ
  ask : ℚ
deriving DecidableEq, Repr

abbrev Book := List (ℚ × Level)

/-- `price in order_book` / `order_book[price]` lookup. -/
def bookFind (b : Book) (p : ℚ) : Option Level :=
  (b.find? (fun e => e.1 == p)).map (fun e => e.2)

/-- `order_book.pop(price, None)`: remove the whole entry at `price`. -/
def bookPop (b : Book) (p : ℚ) : Book :=
  b.filter (fun e => e.1 != p)

/-- `order_book[price] = level` when the key is already present. -/
def bookReplace (b : Book) (p : ℚ) (l : Level) : Book :=
  b.map (fun e => if e.1 == p then (p, l) else e)

/-- One iteration of the bid loop of `update_orderbook`:
`if size == 0: pop(price)` else insert/update the bid side. -/
def applyBidChange (b : Book) (pq : ℚ × ℚ) : Book :=
  if pq.2 = 0 then bookPop b pq.1
  else
    match bookFind b pq.1 with
    | none => b ++ [(pq.1, ⟨pq.2, 0⟩)]
    | some l => bookReplace b pq.1 ⟨pq.2, l.ask⟩

/-- One iteration of the ask loop of `update_orderbook`. -/
def applyAskChange (b : Book) (pq : ℚ × ℚ) : Book :=
  if pq.2 = 0 then bookPop b pq.1
  else
    match bookFind b pq.1 with
    | none => b ++ [(pq.1, ⟨0, pq.2⟩)]
    | some l => bookReplace b pq.1 ⟨l.bid, pq.2⟩

/-- Payload of one order-book message as consumed by `update_orderbook`. -/
structure BookUpdate where
  is_snapshot : Bool
  bids : List (ℚ × ℚ)
  asks : List (ℚ × ℚ)
deriving Repr

/-- `get_mid_price` (order_flow_analyzer_v2.py lines 173-183).
`best_bid` defaults to `0`; the Python `float('inf')` default for
`best_ask` is rendered as `Option ℚ` (`none` = no ask found). -/
def bestBid (b : Book) : ℚ :=
  ((b.filter (fun e => 0 < e.2.bid)).map (fun e => e.1)).foldr max 0

def bestAsk (b : Book) : Option ℚ :=
  match (b.filter (fun e => 0 < e.2.ask)).map (fun e => e.1) with
  | [] => none
  | p :: ps => some (ps.foldl min p)

def get_mid_price (b : Book) (current_price : ℚ) : ℚ :=
  if b = [] then current_price
  else
    match bestAsk b with
    | some a => if 0 < bestBid b then (bestBid b + a) / 2 else current_price
    | none => current_price

/-- `update_orderbook` (order_flow_analyzer_v2.py lines 59-103): clear on
snapshot, apply bid changes then ask changes, then evict far levels when
the book holds more than `2 × MAX_ORDERBOOK_LEVELS` entries and the mid
price is truthy (non-zero). -/
def update_orderbook (data : BookUpdate) (book : Book) (current_price : ℚ) : Book :=
  let b0 := if data.is_snapshot then [] else book
  let b1 := data.bids.foldl applyBidChange b0
  let b2 := data.asks.foldl applyAskChange b1
  if MAX_ORDERBOOK_LEVELS * 2 < b2.length then
    let m := get_mid_price b2 current_price
    if m ≠ 0 then b2.filter (fun e => |e.1 - m| ≤ m * (1 / 100)) else b2
  else b2

/-- No level of the book has both sizes equal to zero. -/
def BookInv (b : Book) : Prop :=
  ∀ e ∈ b, ¬(e.2.bid = 0 ∧ e.2.ask = 0)

instance (b : Book) : Decidable (BookInv b) := by
  unfold BookInv; infer_instance

/-! ## Exchange connector (binance_connector_v2.py: BinanceConnector)

The connector keeps `last_update_id`, `synced`, `desync_count` and a
`snapshot_pending` buffer.  Network effects are made observable in the
state: `applied` records every diff forwarded to `orderbook_callback`,
and `snapshot_requests` counts the calls to `fetch_orderbook_snapshot`
issued by the re-sync branch (the REST round-trip itself is external). -/

structure Diff where
  U : ℕ
  u : ℕ
  bids : List (ℚ × ℚ)
  asks : List (ℚ × ℚ)
deriving DecidableEq, Repr

structure ConnState where
  last_update_id : ℕ
  synced : Bool
  desync_count : ℕ
  snapshot_pending : List Diff
  applied : List Diff
  snapshot_requests : ℕ
deriving DecidableEq, Repr

/-- Forward the diff to `orderbook_callback` and set
`last_update_id = u` (binance_connector_v2.py lines 194-211). -/
def connApply (s : ConnState) (d : Diff) : ConnState :=
  { s with last_update_id := d.u, applied := s.applied ++ [d] }

/-- Sequence-continuity part of `_process_orderbook_update`
(lines 179-211), entered with `synced = true`. -/
def connAfterSync (s : ConnState) (d : Diff) : ConnState :=
  if d.U ≠ s.last_update_id + 1 then
    let dc := s.desync_count + 1
    if 3 ≤ dc then
      { s with synced := false, desync_count := 0,
               snapshot_requests := s.snapshot_requests + 1 }
    else connApply { s with desync_count := dc } d
  else connApply { s with desync_count := 0 } d

/-- `_process_orderbook_update` (binance_connector_v2.py lines 157-211).
When unsynced, the diff establishes sync iff `U ≤ last_update_id + 1 ≤ u`
and is then processed by the continuity check with `synced` now true;
otherwise it is skipped. -/
def process_orderbook_update (s : ConnState) (d : Diff) : ConnState :=
  if s.synced then connAfterSync s d
  else if d.U ≤ s.last_update_id + 1 ∧ s.last_update_id + 1 ≤ d.u then
    connAfterSync { s with synced := true } d
  else s

/-- `_process_buffered_updates` (lines 82-89): run every pending diff
through `_process_orderbook_update`, then clear the buffer. -/
def process_buffered_updates (s : ConnState) : ConnState :=
  let s1 := s.snapshot_pending.foldl process_orderbook_update s
  { s1 with snapshot_pending := [] }

/-- Snapshot arrival inside `fetch_orderbook_snapshot` (lines 36-76):
store the REST `lastUpdateId` as `last_update_id`, then drain the
pending buffer.  The snapshot levels themselves go to the book callback
and do not touch the sync state. -/
def fetch_orderbook_snapshot (s : ConnState) (S : ℕ) : ConnState :=
  process_buffered_updates { s with last_update_id := S }

/-- `process_orderbook` (lines 142-152) for a depth frame: buffer while
unsynced, else validate-and-apply. -/
def process_orderbook (s : ConnState) (d : Diff) : ConnState :=
  if s.synced then process_orderbook_update s d
  else { s with snapshot_pending := s.snapshot_pending ++ [d] }

/-! ## Trades and flow analysis (order_flow_analyzer_v2.py) -/

/-- A normalized trade (`process_trade` in the connector): `timestamp`
is in milliseconds, `side` is the aggressor side. -/
structure Trade where
  price : ℚ
  size : ℚ
  side : String
  timestamp : ℚ
deriving DecidableEq, Repr

def sumNotional (l : List Trade) : ℚ :=
  (l.map (fun t => t.price * t.size)).sum

/-- Stable insertion into a price-sorted list (models Python `sort` by
the first component). -/
def insertByFst {α : Type} (x : ℚ × α) : List (ℚ × α) → List (ℚ × α)
  | [] => [x]
  | y :: ys => if x.1 < y.1 then x :: y :: ys else y :: insertByFst x ys

def sortByFst {α : Type} : List (ℚ × α) → List (ℚ × α)
  | [] => []
  | x :: xs => insertByFst x (sortByFst xs)

def insertQ (x : ℚ) : List ℚ → List ℚ
  | [] => [x]
  | y :: ys => if x < y then x :: y :: ys else y :: insertQ x ys

def sortQ : List ℚ → List ℚ
  | [] => []
  | x :: xs => insertQ x (sortQ xs)

def listMinD (l : List ℚ) (d : ℚ) : ℚ :=
  match l with
  | [] => d
  | x :: xs => xs.foldl min x

def listMaxD (l : List ℚ) (d : ℚ) : ℚ :=
  match l with
  | [] => d
  | x :: xs => xs.foldl max x

/-- Grouping loop of `_find_largest_adjacent_group` (lines 323-338):
walk the sorted levels, extending the current group while the distance
to the previous level stays within the threshold. -/
def buildGroups (thr : ℚ) : (ℚ × ℚ) → List (ℚ × ℚ) → List (List (ℚ × ℚ)) →
    List (ℚ × ℚ) → List (List (ℚ × ℚ))
  | _, cur, acc, [] =>
      if LIQUIDITY_SWEEP_MIN_LEVELS ≤ cur.length then acc ++ [cur] else acc
  | prev, cur, acc, x :: xs =>
      if |x.1 - prev.1| ≤ thr then buildGroups thr x (cur ++ [x]) acc xs
      else if LIQUIDITY_SWEEP_MIN_LEVELS ≤ cur.length then
        buildGroups thr x [x] (acc ++ [cur]) xs
      else buildGroups thr x [x] acc xs

/-- `_find_largest_adjacent_group` (lines 303-341). The adjacency
threshold is twice the median of consecutive price distances; `max`
with `key=len` returns the first group of maximal length. -/
def find_largest_adjacent_group (levels : List (ℚ × ℚ)) : List (ℚ × ℚ) :=
  match levels with
  | [] => []
  | _ =>
    match sortByFst levels with
    | [] => []
    | [x] => [x]
    | x :: y :: rest =>
      let sorted := x :: y :: rest
      let distances := List.zipWith (fun a b => |b.1 - a.1|) sorted (y :: rest)
      let medianDist := (sortQ distances).getD (distances.length / 2) 0
      let thr := medianDist * 2
      match buildGroups thr x [x] [] (y :: rest) with
      | [] => []
      | g :: gs => gs.foldl (fun best h => if best.length < h.length then h else best) g

/-- Window-and-zone filter of `_confirm_sweep_with_trades` (lines
352-357): trade within the last 2 seconds and priced inside the zone. -/
def tradeWindowZone (price_min price_max now : ℚ) (t : Trade) : Bool :=
  decide (now - 2 ≤ t.timestamp / 1000) && decide (t.timestamp / 1000 ≤ now) &&
  decide (price_min ≤ t.price) && decide (t.price ≤ price_max)

def expectedSide (direction : String) : String :=
  if direction == "down" then "sell" else "buy"

def tradeSideIs (side : String) (t : Trade) : Bool := t.side == side

/-- `_confirm_sweep_with_trades` (lines 343-375). -/
def confirm_sweep_with_trades (trades : List Trade) (price_min price_max : ℚ)
    (direction : String) (now : ℚ) : Bool :=
  let relevant := trades.filter (tradeWindowZone price_min price_max now)
  if relevant.isEmpty then false
  else
    let matching := relevant.filter (tradeSideIs (expectedSide direction))
    if matching.isEmpty then false
    else decide (MIN_TRADE_CONFIRM_NOTIONAL ≤ sumNotional matching)

structure Sweep where
  direction : String
  levels_removed : ℕ
  notional : ℚ
  prices : List ℚ
  time_ms : ℚ
  trade_confirmed : Bool
deriving DecidableEq, Repr

/-- `_process_sweep` (lines 256-301). -/
def process_sweep (removed_levels : List (ℚ × ℚ)) (direction : String)
    (time_ms : ℚ) (trades : List Trade) (now : ℚ) : Option Sweep :=
  if removed_levels.isEmpty then none
  else
    let adjacent_group := find_largest_adjacent_group removed_levels
    if adjacent_group.length < LIQUIDITY_SWEEP_MIN_LEVELS then none
    else
      let notional := ((adjacent_group.map (fun pq => pq.1 * pq.2)).sum)
      if notional < MIN_SWEEP_NOTIONAL then none
      else
        let sweep_prices := adjacent_group.map (fun pq => pq.1)
        let zone_min := listMinD sweep_prices 0
        let zone_max := listMaxD sweep_prices 0
        if confirm_sweep_with_trades trades zone_min zone_max direction now then
          some ⟨direction, adjacent_group.length, notional, sweep_prices, time_ms, true⟩
        else none

/-- Bid-side removal test of `detect_liquidity_sweep` (line 231):
`price not in order_book or order_book[price]['bid'] == 0`. -/
def bidRemoved (cur : Book) (e : ℚ × Level) : Bool :=
  match bookFind cur e.1 with
  | none => true
  | some l => l.bid == 0

def askRemoved (cur : Book) (e : ℚ × Level) : Bool :=
  match bookFind cur e.1 with
  | none => true
  | some l => l.ask == 0

/-- `detect_liquidity_sweep` (lines 210-254). -/
def detect_liquidity_sweep (previous_book order_book : Book)
    (is_snapshot_loaded : Bool) (book_snapshot_time now : ℚ)
    (trades : List Trade) : Option Sweep :=
  if previous_book.isEmpty || order_book.isEmpty || !is_snapshot_loaded then none
  else
    let time_diff_ms := (now - book_snapshot_time) * 1000
    if LIQUIDITY_SWEEP_TIME_MS < time_diff_ms then none
    else
      let removed_bids := (previous_book.filter
        (fun e => bidRemoved order_book e && decide (0 < e.2.bid))).map
        (fun e => (e.1, e.2.bid))
      let removed_asks := (previous_book.filter
        (fun e => askRemoved order_book e && decide (0 < e.2.ask))).map
        (fun e => (e.1, e.2.ask))
      let askTry :=
        if LIQUIDITY_SWEEP_MIN_LEVELS ≤ removed_asks.length then
          process_sweep removed_asks "up" time_diff_ms trades now
        else none
      if LIQUIDITY_SWEEP_MIN_LEVELS ≤ removed_bids.length then
        match process_sweep removed_bids "down" time_diff_ms trades now with
        | some s => some s
        | none => askTry
      else askTry

structure Absorption where
  volume : ℚ
  price_change_pct : ℚ
  absorbing_side : String
  price_level : ℚ
  volume_to_depth : ℚ
deriving DecidableEq, Repr

/-- `_get_depth_at_side` (lines 441-454): sum of sizes of the
`num_levels` best levels on the side (`[-n:]` of the ascending sort for
bids, `[:n]` for asks). -/
def get_depth_at_side (book : Book) (side : String) (num_levels : ℕ) : ℚ :=
  if side == "bid" then
    if book.isEmpty then 0
    else
      let levels := (book.filter (fun e => 0 < e.2.bid)).map (fun e => (e.1, e.2.bid))
      let sorted := sortByFst levels
      ((sorted.drop (sorted.length - num_levels)).map (fun pq => pq.2)).sum
  else
    if book.isEmpty then 0
    else
      let levels := (book.filter (fun e => 0 < e.2.ask)).map (fun e => (e.1, e.2.ask))
      (((sortByFst levels).take num_levels).map (fun pq => pq.2)).sum

/-- Python truthiness of `self.atr` (`None` and `0.0` are falsy). -/
def atrTruthy : Option ℚ → Bool
  | none => false
  | some a => a != 0

/-- Trades inside the 10-second absorption window (line 391-392). -/
def inAbsorptionWindow (now : ℚ) (t : Trade) : Bool :=
  decide (now - 10 < t.timestamp / 1000)

/-- `detect_absorption` (lines 377-439). -/
def detect_absorption (trades : List Trade) (book : Book) (atr : Option ℚ)
    (now : ℚ) : Option Absorption :=
  if trades.length < 10 then none
  else
    let recent := trades.filter (inAbsorptionWindow now)
    if recent.isEmpty then none
    else
      let total_volume := (recent.map (fun t => t.size)).sum
      let prices := recent.map (fun t => t.price)
      let price_range_pct := (listMaxD prices 0 - listMinD prices 0) / listMinD prices 0
      let max_movement :=
        if atrTruthy atr then
          PRICE_MOVEMENT_THRESHOLD * min ((atr.getD 0) / (1 / 10000)) 3
        else PRICE_MOVEMENT_THRESHOLD
      if max_movement < price_range_pct then none
      else
        let buy_vol := ((recent.filter (fun t => t.side == "buy")).map (fun t => t.size)).sum
        let sell_vol := ((recent.filter (fun t => t.side == "sell")).map (fun t => t.size)).sum
        let absorbing_side := if sell_vol < buy_vol then "ask" else "bid"
        let aggressive_vol := max buy_vol sell_vol
        let available_depth := get_depth_at_side book absorbing_side 10
        if available_depth = 0 then none
        else
          let volume_to_depth := aggressive_vol / available_depth
          if volume_to_depth < MIN_ABSORPTION_RATE then none
          else some ⟨total_volume, price_range_pct, absorbing_side,
                     prices.sum / (prices.length : ℚ), volume_to_depth⟩

/-! ## Signal generator (signal_generator_v2.py: SignalGenerator)

One tick of the generator consumes the analyzer's market-state record
and the current wall-clock time `now` (every `time.time()` read inside
the tick is modelled by the same `now`). -/

structure DeltaInfo where
  buy_volume : ℚ
  sell_volume : ℚ
  delta : ℚ
  normalized_delta : ℚ
deriving DecidableEq, Repr

/-- `get_market_state` output (order_flow_analyzer_v2.py lines 456-474)
as consumed by the generator. -/
structure MarketState where
  timestamp : ℚ
  price : ℚ
  mid_price : ℚ
  delta : DeltaInfo
  liquidity_sweep : Option Sweep
  absorption : Option Absorption
  total_trades : ℕ
  volatility_state : String
  atr : Option ℚ
  is_synced : Bool
deriving Repr

/-- An emitted signal record.  The Python dict of the sweep-confirmed
generators carries no `'pattern'` key; this is modelled as
`pattern = none`. -/
structure Signal where
  type : String
  price : ℚ
  timestamp : ℚ
  confidence : ℕ
  reasons : List String
  delta : ℚ
  sweep_levels : ℕ
  volatility : String
  pattern : Option String
deriving DecidableEq, Repr

inductive DeltaFlip where
  | noFlip
  | bullish
  | bearish
deriving DecidableEq, Repr

structure GenState where
  last_signal_time : ℚ
  recent_sweep : Option Sweep
  sweep_time : ℚ
  previous_delta : ℚ
  delta_history : List ℚ
  sweep_detected : Bool
  absorption_detected : Bool
  delta_flip : DeltaFlip
  price_reclaim : Bool
  signals_generated : ℕ
  signals_filtered : ℕ
  filter_reasons : List (String × ℕ)
  signal_history : List Signal
deriving Repr

/-- `SignalGenerator.__init__` (lines 22-45). -/
def GenState.init : GenState :=
  { last_signal_time := 0, recent_sweep := none, sweep_time := 0,
    previous_delta := 0, delta_history := [], sweep_detected := false,
    absorption_detected := false, delta_flip := .noFlip,
    price_reclaim := false, signals_generated := 0, signals_filtered := 0,
    filter_reasons := [], signal_history := [] }

/-- Bounded deque append (`deque(maxlen=n)`). -/
def appendMax {α : Type} (n : ℕ) (l : List α) (x : α) : List α :=
  let l2 := l ++ [x]
  if n < l2.length then l2.drop (l2.length - n) else l2

/-- `self.filter_reasons[reason] = self.filter_reasons.get(reason, 0) + 1`
on the dict modelled as an association list with unique keys. -/
def bumpReason (rs : List (String × ℕ)) (r : String) : List (String × ℕ) :=
  match rs with
  | [] => [(r, 1)]
  | e :: rest => if e.1 == r then (e.1, e.2 + 1) :: rest else e :: bumpReason rest r

/-- `self.filter_reasons.get(reason, 0)`. -/
def reasonCount (rs : List (String × ℕ)) (r : String) : ℕ :=
  match rs with
  | [] => 0
  | e :: rest => if e.1 == r then e.2 else reasonCount rest r

/-- `_record_filter` (lines 143-146). -/
def record_filter (s : GenState) (reason : String) : GenState :=
  { s with signals_filtered := s.signals_filtered + 1,
           filter_reasons := bumpReason s.filter_reasons reason }

/-- `check_regime_filter` (lines 114-141): returns the updated state and
the `(should_filter, reason)` pair. -/
def check_regime_filter (s : GenState) (ms : MarketState) :
    GenState × Bool × String :=
  if ms.volatility_state == "extreme" then
    (record_filter s "extreme_volatility", true, "extreme_volatility")
  else if !ms.is_synced then
    (record_filter s "book_not_synced", true, "book_not_synced")
  else (s, false, "regime_approved")

/-- `update_state`, sweep tracking (lines 51-63). -/
def trackSweep (s : GenState) (ms : MarketState) (now : ℚ) : GenState :=
  match ms.liquidity_sweep with
  | some sw =>
      { s with recent_sweep := some sw, sweep_time := now, sweep_detected := true }
  | none =>
      if s.recent_sweep.isSome && decide (10 < now - s.sweep_time) then
        { s with recent_sweep := none, sweep_detected := false }
      else s

/-- `update_state`, absorption tracking (lines 65-71). -/
def trackAbsorption (s : GenState) (ms : MarketState) : GenState :=
  { s with absorption_detected := ms.absorption.isSome }

/-- `update_state`, delta-flip tracking and `previous_delta` update
(lines 73-98). -/
def trackDeltaFlip (s : GenState) (ms : MarketState) (now : ℚ) : GenState :=
  let current_delta := ms.delta.normalized_delta
  let dh := appendMax 20 s.delta_history current_delta
  let s3 := { s with delta_history := dh }
  let s4 :=
    if 2 ≤ dh.length then
      let delta_change := current_delta - s3.previous_delta
      let min_flip :=
        if atrTruthy ms.atr then
          MIN_DELTA_FLIP * max (1 / 2) (min ((ms.atr.getD 0) / (3 / 10000)) 2)
        else MIN_DELTA_FLIP
      if min_flip < |delta_change| then
        if s3.previous_delta < -min_flip ∧ min_flip < current_delta then
          { s3 with delta_flip := .bullish }
        else if min_flip < s3.previous_delta ∧ current_delta < -min_flip then
          { s3 with delta_flip := .bearish }
        else s3
      else if 5 < now - s3.sweep_time then { s3 with delta_flip := .noFlip }
      else s3
    else s3
  { s4 with previous_delta := current_delta }

/-- `update_state`, price-reclaim tracking (lines 100-112). -/
def trackPriceReclaim (s : GenState) (ms : MarketState) : GenState :=
  match s.recent_sweep with
  | some sw =>
      if sw.direction == "down" then
        if !sw.prices.isEmpty && decide (listMinD sw.prices 0 < ms.price) then
          { s with price_reclaim := true }
        else s
      else if sw.direction == "up" then
        if !sw.prices.isEmpty && decide (ms.price < listMaxD sw.prices 0) then
          { s with price_reclaim := true }
        else s
      else s
  | none => s

/-- `update_state` (lines 47-112). -/
def update_state (s : GenState) (ms : MarketState) (now : ℚ) : GenState :=
  trackPriceReclaim (trackDeltaFlip (trackAbsorption (trackSweep s ms now) ms) ms now) ms

/-- `_reset_state` (lines 405-413). -/
def reset_state (s : GenState) : GenState :=
  { s with recent_sweep := none, sweep_detected := false,
           absorption_detected := false, delta_flip := .noFlip,
           price_reclaim := false }

/-- `self.recent_sweep['levels_removed']`; call sites guarantee the
sweep is present. -/
def levelsOf : Option Sweep → ℕ
  | some sw => sw.levels_removed
  | none => 0

/-- Bookkeeping shared by the four generators on emission:
`last_signal_time = now`, history append, counter, `_reset_state`. -/
def emitSignal (s : GenState) (sig : Signal) (now : ℚ) : GenState :=
  reset_state { s with last_signal_time := now,
                       signal_history := appendMax 100 s.signal_history sig,
                       signals_generated := s.signals_generated + 1 }

/-- `_generate_buy_signal_with_sweep` (lines 179-222). -/
def generate_buy_signal_with_sweep (s : GenState) (ms : MarketState)
    (now : ℚ) : GenState × Option Signal :=
  let lv := levelsOf s.recent_sweep
  let c1 : ℕ := if s.recent_sweep.isSome then 30 else 0
  let c2 : ℕ := if s.delta_flip = .bullish then 40 else 0
  let c3 : ℕ := if s.absorption_detected then 20 else 0
  let c4 : ℕ := if s.price_reclaim then 10 else 0
  let confidence := c1 + c2 + c3 + c4
  let reasons :=
    (if s.recent_sweep.isSome then [s!"sweep ↓ ({lv} levels)"] else []) ++
    (if s.delta_flip = .bullish then ["delta flip ↑"] else []) ++
    (if s.absorption_detected then ["absorption confirmed"] else []) ++
    (if s.price_reclaim then ["price reclaim"] else [])
  if 70 ≤ confidence then
    let sig : Signal :=
      { type := "BUY", price := ms.price, timestamp := now,
        confidence := confidence, reasons := reasons,
        delta := ms.delta.delta, sweep_levels := lv,
        volatility := ms.volatility_state, pattern := none }
    (emitSignal s sig now, some sig)
  else (s, none)

/-- `_generate_buy_signal_no_sweep` (lines 224-266). -/
def generate_buy_signal_no_sweep (s : GenState) (ms : MarketState)
    (now : ℚ) : GenState × Option Signal :=
  let c1 : ℕ := if s.delta_flip = .bullish then 50 else 0
  let c2 : ℕ := if s.absorption_detected then 30 else 0
  let c3 : ℕ := if MIN_DELTA_FLIP * 3 < ms.delta.delta then 20 else 0
  let confidence := c1 + c2 + c3
  let reasons :=
    (if s.delta_flip = .bullish then ["strong delta flip ↑"] else []) ++
    (if s.absorption_detected then ["absorption support"] else []) ++
    (if MIN_DELTA_FLIP * 3 < ms.delta.delta then ["very strong buying"] else [])
  if 60 ≤ confidence then
    let sig : Signal :=
      { type := "BUY", price := ms.price, timestamp := now,
        confidence := confidence, reasons := reasons,
        delta := ms.delta.delta, sweep_levels := 0,
        volatility := ms.volatility_state, pattern := some "no_sweep" }
    (emitSignal s sig now, some sig)
  else (s, none)

/-- `_generate_sell_signal_with_sweep` (lines 299-342). -/
def generate_sell_signal_with_sweep (s : GenState) (ms : MarketState)
    (now : ℚ) : GenState × Option Signal :=
  let lv := levelsOf s.recent_sweep
  let c1 : ℕ := if s.recent_sweep.isSome then 30 else 0
  let c2 : ℕ := if s.delta_flip = .bearish then 40 else 0
  let c3 : ℕ := if s.absorption_detected then 20 else 0
  let c4 : ℕ := if s.price_reclaim then 10 else 0
  let confidence := c1 + c2 + c3 + c4
  let reasons :=
    (if s.recent_sweep.isSome then [s!"sweep ↑ ({lv} levels)"] else []) ++
    (if s.delta_flip = .bearish then ["delta flip ↓"] else []) ++
    (if s.absorption_detected then ["absorption confirmed"] else []) ++
    (if s.price_reclaim then ["price reclaim"] else [])
  if 70 ≤ confidence then
    let sig : Signal :=
      { type := "SELL", price := ms.price, timestamp := now,
        confidence := confidence, reasons := reasons,
        delta := ms.delta.delta, sweep_levels := lv,
        volatility := ms.volatility_state, pattern := none }
    (emitSignal s sig now, some sig)
  else (s, none)

/-- `_generate_sell_signal_no_sweep` (lines 344-386). -/
def generate_sell_signal_no_sweep (s : GenState) (ms : MarketState)
    (now : ℚ) : GenState × Option Signal :=
  let c1 : ℕ := if s.delta_flip = .bearish then 50 else 0
  let c2 : ℕ := if s.absorption_detected then 30 else 0
  let c3 : ℕ := if ms.delta.delta < -(MIN_DELTA_FLIP * 3) then 20 else 0
  let confidence := c1 + c2 + c3
  let reasons :=
    (if s.delta_flip = .bearish then ["strong delta flip ↓"] else []) ++
    (if s.absorption_detected then ["absorption resistance"] else []) ++
    (if ms.delta.delta < -(MIN_DELTA_FLIP * 3) then ["very strong selling"] else [])
  if 60 ≤ confidence then
    let sig : Signal :=
      { type := "SELL", price := ms.price, timestamp := now,
        confidence := confidence, reasons := reasons,
        delta := ms.delta.delta, sweep_levels := 0,
        volatility := ms.volatility_state, pattern := some "no_sweep" }
    (emitSignal s sig now, some sig)
  else (s, none)

/-- `self.recent_sweep and self.recent_sweep['direction'] == d`. -/
def sweepDirIs (s : GenState) (d : String) : Bool :=
  match s.recent_sweep with
  | some sw => sw.direction == d
  | none => false

/-- ALTERNATIVE PATH of `check_buy_signal` (lines 169-175): no-sweep
signal on strong delta flip with absorption. -/
def buy_alternative_path (s1 : GenState) (ms : MarketState) (now : ℚ) :
    GenState × Option Signal :=
  if s1.delta_flip = .bullish ∧ s1.absorption_detected ∧
      MIN_DELTA_FLIP * 2 < ms.delta.delta then
    generate_buy_signal_no_sweep s1 ms now
  else (s1, none)

/-- `check_buy_signal` (lines 148-177): cooldown, regime filter, primary
sweep path (whose result is returned even when it is `None`), then the
no-sweep alternative path. -/
def check_buy_signal (s : GenState) (ms : MarketState) (now : ℚ) :
    GenState × Option Signal :=
  if now - s.last_signal_time < COOLDOWN_SECONDS then (s, none)
  else
    let f := check_regime_filter s ms
    let s1 := f.1
    if f.2.1 then (s1, none)
    else
      if sweepDirIs s1 "down" then
        if s1.delta_flip = .bullish then generate_buy_signal_with_sweep s1 ms now
        else buy_alternative_path s1 ms now
      else buy_alternative_path s1 ms now

/-- ALTERNATIVE PATH of `check_sell_signal` (lines 289-295). -/
def sell_alternative_path (s1 : GenState) (ms : MarketState) (now : ℚ) :
    GenState × Option Signal :=
  if s1.delta_flip = .bearish ∧ s1.absorption_detected ∧
      ms.delta.delta < -(MIN_DELTA_FLIP * 2) then
    generate_sell_signal_no_sweep s1 ms now
  else (s1, none)

/-- `check_sell_signal` (lines 268-297). -/
def check_sell_signal (s : GenState) (ms : MarketState) (now : ℚ) :
    GenState × Option Signal :=
  if now - s.last_signal_time < COOLDOWN_SECONDS then (s, none)
  else
    let f := check_regime_filter s ms
    let s1 := f.1
    if f.2.1 then (s1, none)
    else
      if sweepDirIs s1 "up" then
        if s1.delta_flip = .bearish then generate_sell_signal_with_sweep s1 ms now
        else sell_alternative_path s1 ms now
      else sell_alternative_path s1 ms now

/-- `generate_signal` (lines 388-403). -/
def generate_signal (s : GenState) (ms : MarketState) (now : ℚ) :
    GenState × Option Signal :=
  let s0 := update_state s ms now
  let b := check_buy_signal s0 ms now
  match b.2 with
  | some sig => (b.1, some sig)
  | none => check_sell_signal b.1 ms now

/-- Run the generator over a list of `(now, market_state)` ticks,
collecting the emitted signals with their emission times. -/
def runTicks (s : GenState) : List (ℚ × MarketState) → GenState × List (ℚ × Signal)
  | [] => (s, [])
  | (now, ms) :: rest =>
    let r := generate_signal s ms now
    let tail := runTicks r.1 rest
    match r.2 with
    | some sig => (tail.1, (now, sig) :: tail.2)
    | none => tail

/-! ## Theorems -/

/-! ### Order-book level invariant (claim C1) -/

theorem bookInv_pop (b : Book) (p : ℚ) (h : BookInv b) : BookInv (bookPop b p) :=
  fun e he => h e (List.mem_of_mem_filter he)

theorem bookInv_replace_bid (b : Book) (p q : ℚ) (l : Level) (hq : q ≠ 0)
    (h : BookInv b) : BookInv (bookReplace b p ⟨q, l.ask⟩) := by
  intro e he
  rcases List.mem_map.mp he with ⟨x, hx, hxe⟩
  by_cases hp : x.1 == p
  · rw [if_pos hp] at hxe
    subst hxe
    exact fun hc => hq hc.1
  · rw [if_neg hp] at hxe
    subst hxe
    exact h x hx

theorem bookInv_replace_ask (b : Book) (p q : ℚ) (l : Level) (hq : q ≠ 0)
    (h : BookInv b) : BookInv (bookReplace b p ⟨l.bid, q⟩) := by
  intro e he
  rcases List.mem_map.mp he with ⟨x, hx, hxe⟩
  by_cases hp : x.1 == p
  · rw [if_pos hp] at hxe
    subst hxe
    exact fun hc => hq hc.2
  · rw [if_neg hp] at hxe
    subst hxe
    exact h x hx

theorem bookInv_applyBidChange (b : Book) (c : ℚ × ℚ) (h : BookInv b) :
    BookInv (applyBidChange b c) := by
  unfold applyBidChange
  split
  · exact bookInv_pop b c.1 h
  next hq =>
    split
    · intro e he
      rcases List.mem_append.mp he with h1 | h2
      · exact h e h1
      · simp only [List.mem_singleton] at h2
        subst h2
        exact fun hc => hq hc.1
    next l _ => exact bookInv_replace_bid b c.1 c.2 l hq h

theorem bookInv_applyAskChange (b : Book) (c : ℚ × ℚ) (h : BookInv b) :
    BookInv (applyAskChange b c) := by
  unfold applyAskChange
  split
  · exact bookInv_pop b c.1 h
  next hq =>
    split
    · intro e he
      rcases List.mem_append.mp he with h1 | h2
      · exact h e h1
      · simp only [List.mem_singleton] at h2
        subst h2
        exact fun hc => hq hc.2
    next l _ => exact bookInv_replace_ask b c.1 c.2 l hq h

theorem bookInv_foldl_bid (cs : List (ℚ × ℚ)) :
    ∀ b : Book, BookInv b → BookInv (cs.foldl applyBidChange b) := by
  induction cs with
  | nil => exact fun b h => h
  | cons c cs ih =>
      intro b h
      exact ih (applyBidChange b c) (bookInv_applyBidChange b c h)

theorem bookInv_foldl_ask (cs : List (ℚ × ℚ)) :
    ∀ b : Book, BookInv b → BookInv (cs.foldl applyAskChange b) := by
  induction cs with
  | nil => exact fun b h => h
  | cons c cs ih =>
      intro b h
      exact ih (applyAskChange b c) (bookInv_applyAskChange b c h)

theorem bookInv_update_orderbook (data : BookUpdate) (b : Book) (cp : ℚ)
    (h : BookInv b) : BookInv (update_orderbook data b cp) := by
  have h0 : BookInv (if data.is_snapshot then [] else b) := by
    split
    · intro e he
      simp at he
    · exact h
  have key : ∀ b0 : Book, BookInv b0 → BookInv (
      let b1 := data.bids.foldl applyBidChange b0
      let b2 := data.asks.foldl applyAskChange b1
      if MAX_ORDERBOOK_LEVELS * 2 < b2.length then
        let m := get_mid_price b2 cp
        if m ≠ 0 then b2.filter (fun e => |e.1 - m| ≤ m * (1 / 100)) else b2
      else b2) := by
    intro b0 hb0
    have h2 := bookInv_foldl_ask data.asks _ (bookInv_foldl_bid data.bids _ hb0)
    dsimp only
    split
    · split
      · exact fun e he => h2 e (List.mem_of_mem_filter he)
      · exact h2
    · exact h2
  exact key _ h0

/-- C1: the claim states that a zero-size change on one side removes
only that side's contribution, preserving a positive opposite side.
The code pops the whole level: on a book holding bid 5 and ask 3 at
price 100, the bid change (100, 0) erases the level entirely — the ask
size 3 is not preserved. -/
theorem C1_counterexample :
    update_orderbook ⟨false, [((100 : ℚ), 0)], []⟩ [((100 : ℚ), ⟨5, 3⟩)] 0 = [] ∧
    bookFind (update_orderbook ⟨false, [((100 : ℚ), 0)], []⟩ [((100 : ℚ), ⟨5, 3⟩)] 0) 100 = none := by
  constructor <;> decide

/-- C1 (amended): a (price, 0) entry on either side deletes the entire
level at that price, including a positive opposite-side size; and no
book reachable by `update_orderbook` from an invariant-satisfying book
contains a level with both sizes zero. -/
theorem C1_zero_size_levels :
    (∀ (data : BookUpdate) (b : Book) (cp : ℚ),
      BookInv b → BookInv (update_orderbook data b cp)) ∧
    (∀ (b : Book) (p : ℚ), applyBidChange b (p, 0) = bookPop b p) ∧
    (∀ (b : Book) (p : ℚ), applyAskChange b (p, 0) = bookPop b p) := by
  refine ⟨bookInv_update_orderbook, fun b p => ?_, fun b p => ?_⟩ <;>
    simp [applyBidChange, applyAskChange]

/-- Witness for `C1_zero_size_levels`: the invariant is preserved on a
concrete update. -/
theorem C1_zero_size_levels_witness :
    BookInv [((100 : ℚ), ⟨5, 3⟩)] ∧
    BookInv (update_orderbook ⟨false, [((100 : ℚ), 7)], [((101 : ℚ), 2)]⟩
      [((100 : ℚ), ⟨5, 3⟩)] 0) :=
  ⟨by decide, C1_zero_size_levels.1 ⟨false, [((100 : ℚ), 7)], [((101 : ℚ), 2)]⟩
    [((100 : ℚ), ⟨5, 3⟩)] 0 (by decide)⟩

/-! ### Mid price (claim C10) -/

theorem bestBid_eq_zero (b : Book) (h : ∀ e ∈ b, ¬ 0 < e.2.bid) : bestBid b = 0 := by
  unfold bestBid
  have he : b.filter (fun e => decide (0 < e.2.bid)) = [] :=
    List.filter_eq_nil_iff.mpr (by intro e hm; simpa using h e hm)
  rw [he]
  rfl

theorem bestAsk_eq_none (b : Book) (h : ∀ e ∈ b, ¬ 0 < e.2.ask) : bestAsk b = none := by
  unfold bestAsk
  have he : b.filter (fun e => decide (0 < e.2.ask)) = [] :=
    List.filter_eq_nil_iff.mpr (by intro e hm; simpa using h e hm)
  rw [he]
  rfl

theorem bestBid_pos_mem (b : Book) (h : 0 < bestBid b) : ∃ e ∈ b, 0 < e.2.bid := by
  by_contra hc
  push_neg at hc
  rw [bestBid_eq_zero b (fun e he => not_lt.mpr (hc e he))] at h
  exact lt_irrefl 0 h

theorem bestAsk_some_mem (b : Book) (a : ℚ) (h : bestAsk b = some a) :
    ∃ e ∈ b, 0 < e.2.ask := by
  by_contra hc
  push_neg at hc
  rw [bestAsk_eq_none b (fun e he => not_lt.mpr (hc e he))] at h
  exact Option.noConfusion h

/-- C10: `get_mid_price` returns the bid-ask midpoint only when the
book has a level with positive bid size and a level with positive ask
size; when the book is empty or a side has no positive level it falls
back to `current_price` (which is `0` before the first trade). -/
theorem C10_get_mid_price :
    (∀ (b : Book) (cp : ℚ),
      ((∀ e ∈ b, ¬ 0 < e.2.bid) ∨ (∀ e ∈ b, ¬ 0 < e.2.ask)) →
        get_mid_price b cp = cp) ∧
    (∀ (b : Book) (cp : ℚ), get_mid_price b cp ≠ cp →
      (∃ e ∈ b, 0 < e.2.bid) ∧ (∃ e ∈ b, 0 < e.2.ask) ∧
      get_mid_price b cp = (bestBid b + (bestAsk b).getD 0) / 2) := by
  constructor
  · intro b cp h
    unfold get_mid_price
    split
    · rfl
    · rcases h with hb | ha
      · rw [bestBid_eq_zero b hb]
        split
        · rw [if_neg (lt_irrefl 0)]
        · rfl
      · rw [bestAsk_eq_none b ha]
  · intro b cp h
    by_cases hemp : b = []
    · exact absurd (by unfold get_mid_price; rw [if_pos hemp]) h
    · cases hsome : bestAsk b with
      | none =>
          exact absurd (by unfold get_mid_price; rw [if_neg hemp, hsome]) h
      | some a =>
          by_cases hpos : 0 < bestBid b
          · refine ⟨bestBid_pos_mem b hpos, bestAsk_some_mem b a hsome, ?_⟩
            unfold get_mid_price
            rw [if_neg hemp, hsome]
            dsimp only
            rw [if_pos hpos]
            simp
          · exact absurd
              (by unfold get_mid_price; rw [if_neg hemp, hsome]; dsimp only;
                  rw [if_neg hpos]) h

/-- Witness for `C10_get_mid_price` on concrete books: a one-sided book
falls back to the current price, a two-sided book yields the midpoint. -/
theorem C10_get_mid_price_witness :
    get_mid_price [((100 : ℚ), ⟨5, 0⟩)] 7 = 7 ∧
    ((∃ e ∈ ([((100 : ℚ), ⟨5, 0⟩), ((101 : ℚ), ⟨0, 2⟩)] : Book), 0 < e.2.bid) ∧
     (∃ e ∈ ([((100 : ℚ), ⟨5, 0⟩), ((101 : ℚ), ⟨0, 2⟩)] : Book), 0 < e.2.ask) ∧
     get_mid_price [((100 : ℚ), ⟨5, 0⟩), ((101 : ℚ), ⟨0, 2⟩)] 7 =
       (bestBid [((100 : ℚ), ⟨5, 0⟩), ((101 : ℚ), ⟨0, 2⟩)] +
        (bestAsk [((100 : ℚ), ⟨5, 0⟩), ((101 : ℚ), ⟨0, 2⟩)]).getD 0) / 2) :=
  ⟨C10_get_mid_price.1 [((100 : ℚ), ⟨5, 0⟩)] 7 (Or.inr (by decide)),
   C10_get_mid_price.2 [((100 : ℚ), ⟨5, 0⟩), ((101 : ℚ), ⟨0, 2⟩)] 7
     (by norm_num [get_mid_price, bestBid, bestAsk, List.filter]; simp)⟩

/-! ### Stream synchronizer (claims C2, C3, C9) -/

theorem process_update_unsynced_skip (s : ConnState) (d : Diff)
    (hs : s.synced = false)
    (h : ¬(d.U ≤ s.last_update_id + 1 ∧ s.last_update_id + 1 ≤ d.u)) :
    process_orderbook_update s d = s := by
  simp [process_orderbook_update, hs, h]

theorem process_update_apply (s : ConnState) (d : Diff) (hs : s.synced = true)
    (h : d.U = s.last_update_id + 1 ∨ s.desync_count + 1 < 3) :
    (process_orderbook_update s d).applied = s.applied ++ [d] ∧
    (process_orderbook_update s d).last_update_id = d.u ∧
    (process_orderbook_update s d).synced = true := by
  unfold process_orderbook_update connAfterSync connApply
  rw [hs]
  by_cases hU : d.U = s.last_update_id + 1
  · rw [if_pos rfl, if_neg (by simp [hU])]
    exact ⟨rfl, rfl, rfl⟩
  · rcases h with h | h
    · exact absurd h hU
    · rw [if_pos rfl, if_pos hU, if_neg (by omega)]
      exact ⟨rfl, rfl, rfl⟩

/-- C2: on a snapshot with id 101 and buffered diffs (102,102),
(110,110), (120,120), (130,130), the drain applies the first three
(each gap raising `desync_count`), but the fourth gap reaches the
desync threshold: the diff is dropped, `synced` ends `false` and a new
snapshot request is issued — contradicting the claim that the first
applicable diff and *all* following buffered diffs are applied and the
state ends Synced. -/
theorem C2_counterexample :
    fetch_orderbook_snapshot
      ⟨0, false, 0, [⟨102, 102, [], []⟩, ⟨110, 110, [], []⟩,
                     ⟨120, 120, [], []⟩, ⟨130, 130, [], []⟩], [], 0⟩ 101 =
    ⟨120, false, 0, [],
     [⟨102, 102, [], []⟩, ⟨110, 110, [], []⟩, ⟨120, 120, [], []⟩], 1⟩ := by
  decide

/-- C2 (amended): draining the buffer after a snapshot with id S skips
every diff failing `U ≤ S+1 ≤ u` while unsynced; once synced, each
buffered diff is applied in order (callback invoked, `last_update_id :=
u`) as long as it is contiguous or the incremented `desync_count` stays
below 3.  On the claim's concrete scenario — buffered (98,99),
(100,102), (103,104), snapshot id 101 — the first is discarded, the
second and third are applied, and `last_update_id` ends at 104 with the
state Synced. -/
theorem C2_snapshot_drain :
    (fetch_orderbook_snapshot
       ⟨0, false, 0, [⟨98, 99, [], []⟩, ⟨100, 102, [], []⟩,
                      ⟨103, 104, [], []⟩], [], 0⟩ 101 =
     ⟨104, true, 0, [], [⟨100, 102, [], []⟩, ⟨103, 104, [], []⟩], 0⟩) ∧
    (∀ (s : ConnState) (d : Diff), s.synced = false →
      ¬(d.U ≤ s.last_update_id + 1 ∧ s.last_update_id + 1 ≤ d.u) →
      process_orderbook_update s d = s) ∧
    (∀ (s : ConnState) (d : Diff), s.synced = true →
      (d.U = s.last_update_id + 1 ∨ s.desync_count + 1 < 3) →
      (process_orderbook_update s d).applied = s.applied ++ [d] ∧
      (process_orderbook_update s d).last_update_id = d.u ∧
      (process_orderbook_update s d).synced = true) :=
  ⟨by decide, process_update_unsynced_skip, process_update_apply⟩

/-- Witness for `C2_snapshot_drain`: skip and apply at concrete states. -/
theorem C2_snapshot_drain_witness :
    process_orderbook_update ⟨101, false, 0, [], [], 0⟩ ⟨98, 99, [], []⟩ =
      ⟨101, false, 0, [], [], 0⟩ ∧
    (process_orderbook_update ⟨102, true, 0, [], [], 0⟩ ⟨103, 104, [], []⟩).applied =
      [] ++ [⟨103, 104, [], []⟩] :=
  ⟨C2_snapshot_drain.2.1 ⟨101, false, 0, [], [], 0⟩ ⟨98, 99, [], []⟩ rfl (by decide),
   (C2_snapshot_drain.2.2 ⟨102, true, 0, [], [], 0⟩ ⟨103, 104, [], []⟩ rfl
     (Or.inl rfl)).1⟩

/-- C3: in the Synced state a gapped diff (`U ≠ last_update_id + 1`)
increments `desync_count`; a contiguous diff resets it to 0; when the
incremented count reaches 3 the connector leaves Synced, clears the
count and issues a new snapshot request — so three consecutive gaps
force a re-snapshot (shown concretely in the last conjunct). -/
theorem C3_desync_tracking :
    (∀ (s : ConnState) (d : Diff), s.synced = true →
      d.U ≠ s.last_update_id + 1 → s.desync_count + 1 < 3 →
      (process_orderbook_update s d).desync_count = s.desync_count + 1 ∧
      (process_orderbook_update s d).synced = true ∧
      (process_orderbook_update s d).snapshot_requests = s.snapshot_requests) ∧
    (∀ (s : ConnState) (d : Diff), s.synced = true →
      d.U ≠ s.last_update_id + 1 → 3 ≤ s.desync_count + 1 →
      (process_orderbook_update s d).synced = false ∧
      (process_orderbook_update s d).desync_count = 0 ∧
      (process_orderbook_update s d).snapshot_requests = s.snapshot_requests + 1 ∧
      (process_orderbook_update s d).applied = s.applied) ∧
    (∀ (s : ConnState) (d : Diff), s.synced = true →
      d.U = s.last_update_id + 1 →
      (process_orderbook_update s d).desync_count = 0) ∧
    ((List.foldl process_orderbook_update ⟨10, true, 0, [], [], 0⟩
        [⟨20, 20, [], []⟩, ⟨30, 30, [], []⟩, ⟨40, 40, [], []⟩]).synced = false ∧
     (List.foldl process_orderbook_update ⟨10, true, 0, [], [], 0⟩
        [⟨20, 20, [], []⟩, ⟨30, 30, [], []⟩, ⟨40, 40, [], []⟩]).snapshot_requests = 1) := by
  refine ⟨?_, ?_, ?_, by decide⟩
  · intro s d hs hU hc
    unfold process_orderbook_update connAfterSync connApply
    rw [hs, if_pos rfl, if_pos hU, if_neg (by omega)]
    exact ⟨rfl, rfl, rfl⟩
  · intro s d hs hU hc
    unfold process_orderbook_update connAfterSync
    rw [hs, if_pos rfl, if_pos hU, if_pos (by omega)]
    exact ⟨rfl, rfl, rfl, rfl⟩
  · intro s d hs hU
    unfold process_orderbook_update connAfterSync connApply
    rw [hs, if_pos rfl, if_neg (by simp [hU])]

/-- Witness for `C3_desync_tracking` at concrete states: a first gap, a
third gap, and a contiguous diff. -/
theorem C3_desync_tracking_witness :
    ((process_orderbook_update ⟨10, true, 0, [], [], 0⟩ ⟨20, 20, [], []⟩).desync_count = 1 ∧
     (process_orderbook_update ⟨10, true, 0, [], [], 0⟩ ⟨20, 20, [], []⟩).synced = true ∧
     (process_orderbook_update ⟨10, true, 0, [], [], 0⟩ ⟨20, 20, [], []⟩).snapshot_requests = 0) ∧
    ((process_orderbook_update ⟨30, true, 2, [], [], 0⟩ ⟨40, 40, [], []⟩).synced = false ∧
     (process_orderbook_update ⟨30, true, 2, [], [], 0⟩ ⟨40, 40, [], []⟩).desync_count = 0 ∧
     (process_orderbook_update ⟨30, true, 2, [], [], 0⟩ ⟨40, 40, [], []⟩).snapshot_requests = 1 ∧
     (process_orderbook_update ⟨30, true, 2, [], [], 0⟩ ⟨40, 40, [], []⟩).applied = []) ∧
    (process_orderbook_update ⟨10, true, 2, [], [], 0⟩ ⟨11, 12, [], []⟩).desync_count = 0 :=
  ⟨C3_desync_tracking.1 ⟨10, true, 0, [], [], 0⟩ ⟨20, 20, [], []⟩ rfl (by decide) (by decide),
   C3_desync_tracking.2.1 ⟨30, true, 2, [], [], 0⟩ ⟨40, 40, [], []⟩ rfl (by decide) (by decide),
   C3_desync_tracking.2.2.1 ⟨10, true, 2, [], [], 0⟩ ⟨11, 12, [], []⟩ rfl rfl⟩

/-- C9: in the Synced state a gapped diff that leaves the incremented
`desync_count` below 3 is nevertheless applied: its changes are
forwarded to the order-book callback and `last_update_id` becomes its
`u`. -/
theorem C9_gap_below_threshold_applied :
    ∀ (s : ConnState) (d : Diff), s.synced = true →
      d.U ≠ s.last_update_id + 1 → s.desync_count + 1 < 3 →
      (process_orderbook_update s d).applied = s.applied ++ [d] ∧
      (process_orderbook_update s d).last_update_id = d.u ∧
      (process_orderbook_update s d).synced = true :=
  fun s d hs hU hc => process_update_apply s d hs (Or.inr hc)

/-- Witness for `C9_gap_below_threshold_applied`: a concrete gapped diff
(expected U = 11, got 20) is forwarded and advances the tracker. -/
theorem C9_gap_below_threshold_applied_witness :
    (process_orderbook_update ⟨10, true, 1, [], [], 0⟩ ⟨20, 21, [(5, 1)], []⟩).applied =
      [] ++ [⟨20, 21, [(5, 1)], []⟩] ∧
    (process_orderbook_update ⟨10, true, 1, [], [], 0⟩ ⟨20, 21, [(5, 1)], []⟩).last_update_id = 21 ∧
    (process_orderbook_update ⟨10, true, 1, [], [], 0⟩ ⟨20, 21, [(5, 1)], []⟩).synced = true :=
  C9_gap_below_threshold_applied ⟨10, true, 1, [], [], 0⟩ ⟨20, 21, [(5, 1)], []⟩
    rfl (by decide) (by decide)

/-! ### Trade-confirmed sweeps (claim C4) -/

theorem confirm_sweep_spec (trades : List Trade) (pmin pmax : ℚ)
    (dir : String) (now : ℚ)
    (h : confirm_sweep_with_trades trades pmin pmax dir now = true) :
    (∃ t ∈ trades, tradeWindowZone pmin pmax now t = true ∧
      tradeSideIs (expectedSide dir) t = true) ∧
    MIN_TRADE_CONFIRM_NOTIONAL ≤ sumNotional (trades.filter
      (fun t => tradeSideIs (expectedSide dir) t && tradeWindowZone pmin pmax now t)) := by
  simp only [confirm_sweep_with_trades] at h
  by_cases h1 : (trades.filter (tradeWindowZone pmin pmax now)).isEmpty = true
  · rw [if_pos h1] at h
    exact absurd h (by simp)
  · rw [if_neg h1] at h
    by_cases h2 : ((trades.filter (tradeWindowZone pmin pmax now)).filter
        (tradeSideIs (expectedSide dir))).isEmpty = true
    · rw [if_pos h2] at h
      exact absurd h (by simp)
    · rw [if_neg h2] at h
      have hsum := of_decide_eq_true h
      have hmat : (trades.filter (tradeWindowZone pmin pmax now)).filter
          (tradeSideIs (expectedSide dir)) =
          trades.filter (fun t => tradeSideIs (expectedSide dir) t &&
            tradeWindowZone pmin pmax now t) :=
        List.filter_filter _ _
      constructor
      · obtain ⟨t, ht⟩ := List.exists_mem_of_ne_nil
          ((trades.filter (tradeWindowZone pmin pmax now)).filter
            (tradeSideIs (expectedSide dir)))
          (fun hnil => h2 (by rw [hnil]; rfl))
        have ht1 := List.mem_filter.mp ht
        have ht2 := List.mem_filter.mp ht1.1
        exact ⟨t, ht2.1, ht2.2, ht1.2⟩
      · rw [hmat] at hsum
        exact hsum

theorem process_sweep_spec (removed : List (ℚ × ℚ)) (dir : String) (tms : ℚ)
    (trades : List Trade) (now : ℚ) (s : Sweep)
    (h : process_sweep removed dir tms trades now = some s) :
    s.direction = dir ∧
    confirm_sweep_with_trades trades (listMinD s.prices 0) (listMaxD s.prices 0)
      dir now = true := by
  simp only [process_sweep] at h
  split at h
  · exact absurd h (by simp)
  · split at h
    · exact absurd h (by simp)
    · split at h
      · exact absurd h (by simp)
      · split at h
        next hconf =>
          rw [Option.some.injEq] at h
          subst h
          exact ⟨rfl, hconf⟩
        · exact absurd h (by simp)

/-- C4: every sweep returned by `detect_liquidity_sweep` is
trade-confirmed: some trade of the last 2 seconds lies inside the swept
zone on the matching side, and the total notional of such
in-zone matching-side trades reaches `MIN_TRADE_CONFIRM_NOTIONAL`. -/
theorem C4_sweep_trade_confirmed :
    ∀ (prev cur : Book) (loaded : Bool) (t0 now : ℚ) (trades : List Trade)
      (s : Sweep),
      detect_liquidity_sweep prev cur loaded t0 now trades = some s →
      (∃ t ∈ trades,
        tradeWindowZone (listMinD s.prices 0) (listMaxD s.prices 0) now t = true ∧
        tradeSideIs (expectedSide s.direction) t = true) ∧
      MIN_TRADE_CONFIRM_NOTIONAL ≤ sumNotional (trades.filter
        (fun t => tradeSideIs (expectedSide s.direction) t &&
          tradeWindowZone (listMinD s.prices 0) (listMaxD s.prices 0) now t)) := by
  intro prev cur loaded t0 now trades s h
  simp only [detect_liquidity_sweep] at h
  split at h
  · exact absurd h (by simp)
  · split at h
    · exact absurd h (by simp)
    · have key : ∀ (removed : List (ℚ × ℚ)) (dir : String),
          process_sweep removed dir ((now - t0) * 1000) trades now = some s →
          (∃ t ∈ trades,
            tradeWindowZone (listMinD s.prices 0) (listMaxD s.prices 0) now t = true ∧
            tradeSideIs (expectedSide s.direction) t = true) ∧
          MIN_TRADE_CONFIRM_NOTIONAL ≤ sumNotional (trades.filter
            (fun t => tradeSideIs (expectedSide s.direction) t &&
              tradeWindowZone (listMinD s.prices 0) (listMaxD s.prices 0) now t)) := by
        intro removed dir hp
        obtain ⟨hdir, hconf⟩ := process_sweep_spec removed dir _ trades now s hp
        rw [hdir]
        exact confirm_sweep_spec trades _ _ dir now hconf
      split at h
      · split at h
        next s' heq =>
          rw [Option.some.injEq] at h
          subst h
          exact key _ _ heq
        next heq =>
          split at h
          · exact key _ _ h
          · exact absurd h (by simp)
      · split at h
        · exact key _ _ h
        · exact absurd h (by simp)

/-- Witness for `C4_sweep_trade_confirmed`: a concrete removed bid level
at price 100 ($6000 notional) confirmed by a sell trade of $2000 inside
the zone within 2 seconds. -/
theorem C4_sweep_trade_confirmed_witness :
    (∃ t ∈ [(⟨100, 20, "sell", 999500⟩ : Trade)],
      tradeWindowZone (listMinD [(100 : ℚ)] 0) (listMaxD [(100 : ℚ)] 0) 1000 t = true ∧
      tradeSideIs (expectedSide "down") t = true) ∧
    MIN_TRADE_CONFIRM_NOTIONAL ≤ sumNotional ([(⟨100, 20, "sell", 999500⟩ : Trade)].filter
      (fun t => tradeSideIs (expectedSide "down") t &&
        tradeWindowZone (listMinD [(100 : ℚ)] 0) (listMaxD [(100 : ℚ)] 0) 1000 t)) :=
  C4_sweep_trade_confirmed [((100 : ℚ), ⟨60, 0⟩)] [((101 : ℚ), ⟨0, 5⟩)] true
    (4999 / 5) 1000 [⟨100, 20, "sell", 999500⟩] ⟨"down", 1, 6000, [100], 200, true⟩
    (by norm_num [detect_liquidity_sweep, process_sweep, find_largest_adjacent_group,
      sortByFst, insertByFst, sortQ, insertQ, buildGroups, listMinD, listMaxD,
      confirm_sweep_with_trades, tradeWindowZone, tradeSideIs, expectedSide,
      sumNotional, bidRemoved, askRemoved, bookFind, List.filter,
      LIQUIDITY_SWEEP_MIN_LEVELS, MIN_SWEEP_NOTIONAL, MIN_TRADE_CONFIRM_NOTIONAL,
      LIQUIDITY_SWEEP_TIME_MS])

/-! ### Absorption data requirements (claim C7) -/

/-- C7: the claim states absorption needs at least 10 trades *within
the last 10 seconds*.  The code only requires 10 trades in the whole
retained history and then at least one trade in the window: with nine
stale trades (timestamp 0) and a single trade inside the window, an
absorption record is still produced. -/
theorem C7_counterexample :
    detect_absorption
      (List.replicate 9 (⟨100, 1, "buy", 0⟩ : Trade) ++ [(⟨100, 50, "buy", 999000⟩ : Trade)])
      [((101 : ℚ), ⟨0, 10⟩)] none 1000 = some ⟨50, 0, "ask", 100, 5⟩ ∧
    ((List.replicate 9 (⟨100, 1, "buy", 0⟩ : Trade) ++
      [(⟨100, 50, "buy", 999000⟩ : Trade)]).filter (inAbsorptionWindow 1000)).length = 1 := by
  have hb : ("buy" == "sell") = false := by decide
  have hb2 : ("buy" == "buy") = true := by decide
  have hab : ¬("ask" = "bid") := by decide
  constructor <;>
    norm_num [detect_absorption, get_depth_at_side, inAbsorptionWindow,
      listMinD, listMaxD, sortByFst, insertByFst, List.filter, List.replicate,
      PRICE_MOVEMENT_THRESHOLD, MIN_ABSORPTION_RATE, atrTruthy, hb, hb2, hab]

/-- C7 (amended): `detect_absorption` silently rejects the tick unless
the retained trade history holds at least 10 trades and at least one
trade falls inside the 10-second absorption window; the ≥ 10 count is
taken over the whole history, not over the window. -/
theorem C7_absorption_data_requirements :
    (∀ (trades : List Trade) (book : Book) (atr : Option ℚ) (now : ℚ),
      trades.length < 10 → detect_absorption trades book atr now = none) ∧
    (∀ (trades : List Trade) (book : Book) (atr : Option ℚ) (now : ℚ),
      trades.filter (inAbsorptionWindow now) = [] →
      detect_absorption trades book atr now = none) := by
  constructor
  · intro trades book atr now h
    unfold detect_absorption
    rw [if_pos h]
  · intro trades book atr now h
    unfold detect_absorption
    by_cases h10 : trades.length < 10
    · rw [if_pos h10]
    · rw [if_neg h10]
      dsimp only
      simp only [h]
      rfl

/-- Witness for `C7_absorption_data_requirements`: an empty history, and
a 10-trade history entirely outside the window. -/
theorem C7_absorption_data_requirements_witness :
    detect_absorption [] [] none 0 = none ∧
    detect_absorption (List.replicate 10 ⟨100, 1, "buy", 0⟩) [] none 1000 = none :=
  ⟨C7_absorption_data_requirements.1 [] [] none 0 (by decide),
   C7_absorption_data_requirements.2 (List.replicate 10 ⟨100, 1, "buy", 0⟩) [] none 1000
     (by norm_num [inAbsorptionWindow, List.filter, List.replicate])⟩

/-! ### Signal generator structure lemmas (used by claims C5, C6, C8) -/

theorem trackSweep_last (s : GenState) (ms : MarketState) (now : ℚ) :
    (trackSweep s ms now).last_signal_time = s.last_signal_time := by
  unfold trackSweep
  repeat' split
  all_goals rfl

theorem trackDeltaFlip_last (s : GenState) (ms : MarketState) (now : ℚ) :
    (trackDeltaFlip s ms now).last_signal_time = s.last_signal_time := by
  unfold trackDeltaFlip
  dsimp only
  repeat' split
  all_goals rfl

theorem trackPriceReclaim_last (s : GenState) (ms : MarketState) :
    (trackPriceReclaim s ms).last_signal_time = s.last_signal_time := by
  unfold trackPriceReclaim
  repeat' split
  all_goals rfl

theorem update_state_last (s : GenState) (ms : MarketState) (now : ℚ) :
    (update_state s ms now).last_signal_time = s.last_signal_time := by
  unfold update_state
  rw [trackPriceReclaim_last, trackDeltaFlip_last]
  exact trackSweep_last s ms now

theorem check_regime_last (s : GenState) (ms : MarketState) :
    (check_regime_filter s ms).1.last_signal_time = s.last_signal_time := by
  unfold check_regime_filter
  repeat' split
  all_goals rfl

theorem emitSignal_last (s : GenState) (sig : Signal) (now : ℚ) :
    (emitSignal s sig now).last_signal_time = now := rfl

theorem gbws_cases (s : GenState) (ms : MarketState) (now : ℚ) :
    generate_buy_signal_with_sweep s ms now = (s, none) ∨
    ∃ sig, generate_buy_signal_with_sweep s ms now = (emitSignal s sig now, some sig) ∧
      sig.pattern = none := by
  unfold generate_buy_signal_with_sweep
  dsimp only
  split_ifs <;> first | exact Or.inl rfl | exact Or.inr ⟨_, rfl, rfl⟩

theorem gsws_cases (s : GenState) (ms : MarketState) (now : ℚ) :
    generate_sell_signal_with_sweep s ms now = (s, none) ∨
    ∃ sig, generate_sell_signal_with_sweep s ms now = (emitSignal s sig now, some sig) ∧
      sig.pattern = none := by
  unfold generate_sell_signal_with_sweep
  dsimp only
  split_ifs <;> first | exact Or.inl rfl | exact Or.inr ⟨_, rfl, rfl⟩

theorem gbns_cases (s : GenState) (ms : MarketState) (now : ℚ) :
    generate_buy_signal_no_sweep s ms now = (s, none) ∨
    ∃ sig, generate_buy_signal_no_sweep s ms now = (emitSignal s sig now, some sig) ∧
      sig.pattern = some "no_sweep" ∧ sig.sweep_levels = 0 := by
  unfold generate_buy_signal_no_sweep
  dsimp only
  split_ifs <;> first | exact Or.inl rfl | exact Or.inr ⟨_, rfl, rfl, rfl⟩

theorem gsns_cases (s : GenState) (ms : MarketState) (now : ℚ) :
    generate_sell_signal_no_sweep s ms now = (s, none) ∨
    ∃ sig, generate_sell_signal_no_sweep s ms now = (emitSignal s sig now, some sig) ∧
      sig.pattern = some "no_sweep" ∧ sig.sweep_levels = 0 := by
  unfold generate_sell_signal_no_sweep
  dsimp only
  split_ifs <;> first | exact Or.inl rfl | exact Or.inr ⟨_, rfl, rfl, rfl⟩

theorem buy_alt_cases (s1 : GenState) (ms : MarketState) (now : ℚ) :
    buy_alternative_path s1 ms now = (s1, none) ∨
    ∃ sig, buy_alternative_path s1 ms now = (emitSignal s1 sig now, some sig) ∧
      sig.pattern = some "no_sweep" ∧ sig.sweep_levels = 0 := by
  unfold buy_alternative_path
  split
  · exact gbns_cases s1 ms now
  · exact Or.inl rfl

theorem sell_alt_cases (s1 : GenState) (ms : MarketState) (now : ℚ) :
    sell_alternative_path s1 ms now = (s1, none) ∨
    ∃ sig, sell_alternative_path s1 ms now = (emitSignal s1 sig now, some sig) ∧
      sig.pattern = some "no_sweep" ∧ sig.sweep_levels = 0 := by
  unfold sell_alternative_path
  split
  · exact gsns_cases s1 ms now
  · exact Or.inl rfl

theorem check_buy_cases (s : GenState) (ms : MarketState) (now : ℚ) :
    (∃ s1, check_buy_signal s ms now = (s1, none) ∧
      s1.last_signal_time = s.last_signal_time) ∨
    (COOLDOWN_SECONDS ≤ now - s.last_signal_time ∧
      ∃ sig st, check_buy_signal s ms now = (st, some sig) ∧
        st.last_signal_time = now ∧
        (sig.pattern = none ∨ sig.pattern = some "no_sweep" ∧ sig.sweep_levels = 0)) := by
  unfold check_buy_signal
  dsimp only
  by_cases h1 : now - s.last_signal_time < COOLDOWN_SECONDS
  · rw [if_pos h1]
    exact Or.inl ⟨s, rfl, rfl⟩
  · rw [if_neg h1]
    have hc : COOLDOWN_SECONDS ≤ now - s.last_signal_time := not_lt.mp h1
    have halt : ∀ r, buy_alternative_path (check_regime_filter s ms).1 ms now = r →
        (∃ s1, r = (s1, none) ∧ s1.last_signal_time = s.last_signal_time) ∨
        (COOLDOWN_SECONDS ≤ now - s.last_signal_time ∧
          ∃ sig st, r = (st, some sig) ∧ st.last_signal_time = now ∧
            (sig.pattern = none ∨ sig.pattern = some "no_sweep" ∧ sig.sweep_levels = 0)) := by
      intro r hr
      rcases buy_alt_cases (check_regime_filter s ms).1 ms now with heq | ⟨sig, heq, hpat⟩
      · exact Or.inl ⟨_, hr ▸ heq, check_regime_last s ms⟩
      · exact Or.inr ⟨hc, sig, _, hr ▸ heq, emitSignal_last _ sig now, Or.inr hpat⟩
    by_cases h2 : (check_regime_filter s ms).2.1 = true
    · rw [if_pos h2]
      exact Or.inl ⟨_, rfl, check_regime_last s ms⟩
    · rw [if_neg h2]
      by_cases h3 : sweepDirIs (check_regime_filter s ms).1 "down" = true
      · rw [if_pos h3]
        by_cases h4 : (check_regime_filter s ms).1.delta_flip = DeltaFlip.bullish
        · rw [if_pos h4]
          rcases gbws_cases (check_regime_filter s ms).1 ms now with heq | ⟨sig, heq, hpat⟩
          · exact Or.inl ⟨_, heq, check_regime_last s ms⟩
          · exact Or.inr ⟨hc, sig, _, heq, emitSignal_last _ sig now, Or.inl hpat⟩
        · rw [if_neg h4]
          exact halt _ rfl
      · rw [if_neg h3]
        exact halt _ rfl

theorem check_sell_cases (s : GenState) (ms : MarketState) (now : ℚ) :
    (∃ s1, check_sell_signal s ms now = (s1, none) ∧
      s1.last_signal_time = s.last_signal_time) ∨
    (COOLDOWN_SECONDS ≤ now - s.last_signal_time ∧
      ∃ sig st, check_sell_signal s ms now = (st, some sig) ∧
        st.last_signal_time = now ∧
        (sig.pattern = none ∨ sig.pattern = some "no_sweep" ∧ sig.sweep_levels = 0)) := by
  unfold check_sell_signal
  dsimp only
  by_cases h1 : now - s.last_signal_time < COOLDOWN_SECONDS
  · rw [if_pos h1]
    exact Or.inl ⟨s, rfl, rfl⟩
  · rw [if_neg h1]
    have hc : COOLDOWN_SECONDS ≤ now - s.last_signal_time := not_lt.mp h1
    have halt : ∀ r, sell_alternative_path (check_regime_filter s ms).1 ms now = r →
        (∃ s1, r = (s1, none) ∧ s1.last_signal_time = s.last_signal_time) ∨
        (COOLDOWN_SECONDS ≤ now - s.last_signal_time ∧
          ∃ sig st, r = (st, some sig) ∧ st.last_signal_time = now ∧
            (sig.pattern = none ∨ sig.pattern = some "no_sweep" ∧ sig.sweep_levels = 0)) := by
      intro r hr
      rcases sell_alt_cases (check_regime_filter s ms).1 ms now with heq | ⟨sig, heq, hpat⟩
      · exact Or.inl ⟨_, hr ▸ heq, check_regime_last s ms⟩
      · exact Or.inr ⟨hc, sig, _, hr ▸ heq, emitSignal_last _ sig now, Or.inr hpat⟩
    by_cases h2 : (check_regime_filter s ms).2.1 = true
    · rw [if_pos h2]
      exact Or.inl ⟨_, rfl, check_regime_last s ms⟩
    · rw [if_neg h2]
      by_cases h3 : sweepDirIs (check_regime_filter s ms).1 "up" = true
      · rw [if_pos h3]
        by_cases h4 : (check_regime_filter s ms).1.delta_flip = DeltaFlip.bearish
        · rw [if_pos h4]
          rcases gsws_cases (check_regime_filter s ms).1 ms now with heq | ⟨sig, heq, hpat⟩
          · exact Or.inl ⟨_, heq, check_regime_last s ms⟩
          · exact Or.inr ⟨hc, sig, _, heq, emitSignal_last _ sig now, Or.inl hpat⟩
        · rw [if_neg h4]
          exact halt _ rfl
      · rw [if_neg h3]
        exact halt _ rfl

theorem generate_signal_cases (s : GenState) (ms : MarketState) (now : ℚ) :
    (∃ st, generate_signal s ms now = (st, none) ∧
      st.last_signal_time = s.last_signal_time) ∨
    (COOLDOWN_SECONDS ≤ now - s.last_signal_time ∧
      ∃ sig st, generate_signal s ms now = (st, some sig) ∧
        st.last_signal_time = now ∧
        (sig.pattern = none ∨ sig.pattern = some "no_sweep" ∧ sig.sweep_levels = 0)) := by
  unfold generate_signal
  dsimp only
  have hus := update_state_last s ms now
  rcases check_buy_cases (update_state s ms now) ms now with ⟨s1, heq, hl⟩ | ⟨hc, sig, st, heq, hl, hp⟩
  · rw [heq]
    dsimp only
    rcases check_sell_cases s1 ms now with ⟨s2, heq2, hl2⟩ | ⟨hc2, sig2, st2, heq2, hl2, hp2⟩
    · exact Or.inl ⟨s2, heq2, by rw [hl2, hl, hus]⟩
    · exact Or.inr ⟨by rw [hl, hus] at hc2; exact hc2, sig2, st2, heq2, hl2, hp2⟩
  · rw [heq]
    dsimp only
    exact Or.inr ⟨by rw [hus] at hc; exact hc, sig, st, rfl, hl, hp⟩

/-! ### Cooldown (claim C5) -/

theorem runTicks_spec (ticks : List (ℚ × MarketState)) :
    ∀ s : GenState,
      (∀ e ∈ (runTicks s ticks).2, s.last_signal_time + COOLDOWN_SECONDS ≤ e.1) ∧
      List.Pairwise (fun a b => COOLDOWN_SECONDS ≤ b.1 - a.1) (runTicks s ticks).2 := by
  induction ticks with
  | nil => exact fun s => ⟨by simp [runTicks], by simp [runTicks]⟩
  | cons t rest ih =>
    intro s
    obtain ⟨now, ms⟩ := t
    rcases generate_signal_cases s ms now with ⟨st, heq, hl⟩ | ⟨hc, sig, st, heq, hl, _⟩
    · have hr : runTicks s ((now, ms) :: rest) = runTicks st rest := by
        simp [runTicks, heq]
      rw [hr]
      obtain ⟨ih1, ih2⟩ := ih st
      exact ⟨fun e he => hl ▸ ih1 e he, ih2⟩
    · have hr : (runTicks s ((now, ms) :: rest)).2 = (now, sig) :: (runTicks st rest).2 := by
        simp [runTicks, heq]
      obtain ⟨ih1, ih2⟩ := ih st
      have hstep : ∀ e ∈ (runTicks st rest).2, now + COOLDOWN_SECONDS ≤ e.1 := by
        intro e he
        have h0 := ih1 e he
        rw [hl] at h0
        exact h0
      have hC : (0 : ℚ) ≤ COOLDOWN_SECONDS := by norm_num [COOLDOWN_SECONDS]
      constructor
      · intro e he
        rw [hr] at he
        rcases List.mem_cons.mp he with rfl | he2
        · dsimp only
          linarith
        · have h2 := hstep e he2
          linarith
      · rw [hr]
        refine List.Pairwise.cons ?_ ih2
        intro e he
        have h2 := hstep e he
        linarith

/-- C5: along any trace of generator ticks, the emission times of any
two emitted signals differ by at least `COOLDOWN_SECONDS` (the later
minus the earlier, in emission order). -/
theorem C5_cooldown_between_signals :
    ∀ (s : GenState) (ticks : List (ℚ × MarketState)),
      List.Pairwise (fun a b => COOLDOWN_SECONDS ≤ b.1 - a.1) (runTicks s ticks).2 :=
  fun s ticks => (runTicks_spec ticks s).2

/-! ### Regime gate (claim C6) -/

theorem regime_blocks (s : GenState) (ms : MarketState)
    (h : ms.volatility_state = "extreme" ∨ ms.is_synced = false) :
    (check_regime_filter s ms).2.1 = true := by
  unfold check_regime_filter
  rcases h with h | h
  · rw [if_pos (beq_iff_eq.mpr h)]
  · by_cases he : (ms.volatility_state == "extreme") = true
    · rw [if_pos he]
    · rw [if_neg he, h]
      rfl

theorem check_buy_regime_none (s : GenState) (ms : MarketState) (now : ℚ)
    (h : ms.volatility_state = "extreme" ∨ ms.is_synced = false) :
    (check_buy_signal s ms now).2 = none := by
  unfold check_buy_signal
  dsimp only
  by_cases h1 : now - s.last_signal_time < COOLDOWN_SECONDS
  · rw [if_pos h1]
  · rw [if_neg h1, if_pos (regime_blocks s ms h)]

theorem check_sell_regime_none (s : GenState) (ms : MarketState) (now : ℚ)
    (h : ms.volatility_state = "extreme" ∨ ms.is_synced = false) :
    (check_sell_signal s ms now).2 = none := by
  unfold check_sell_signal
  dsimp only
  by_cases h1 : now - s.last_signal_time < COOLDOWN_SECONDS
  · rw [if_pos h1]
  · rw [if_neg h1, if_pos (regime_blocks s ms h)]

theorem reasonCount_bumpReason (rs : List (String × ℕ)) (r : String) :
    reasonCount (bumpReason rs r) r = reasonCount rs r + 1 := by
  induction rs with
  | nil => simp [bumpReason, reasonCount]
  | cons e rest ih =>
    by_cases he : (e.1 == r) = true
    · simp [bumpReason, reasonCount, he]
    · simp [bumpReason, reasonCount, he, ih]

/-- C6: no signal is emitted on a tick whose market state reports
`extreme` volatility or an unsynced book; a rejected check records the
rejection (`signals_filtered` and the per-reason counter each grow by
one); `calm` volatility alone does not block — the final conjunct shows
a concrete calm-market tick that emits a signal. -/
theorem C6_regime_gate :
    (∀ (s : GenState) (ms : MarketState) (now : ℚ),
      ms.volatility_state = "extreme" ∨ ms.is_synced = false →
      (generate_signal s ms now).2 = none) ∧
    (∀ (s : GenState) (ms : MarketState), ms.volatility_state = "extreme" →
      check_regime_filter s ms =
        (record_filter s "extreme_volatility", true, "extreme_volatility")) ∧
    (∀ (s : GenState) (ms : MarketState), ms.volatility_state ≠ "extreme" →
      ms.is_synced = false →
      check_regime_filter s ms =
        (record_filter s "book_not_synced", true, "book_not_synced")) ∧
    (∀ (s : GenState) (r : String),
      (record_filter s r).signals_filtered = s.signals_filtered + 1 ∧
      reasonCount (record_filter s r).filter_reasons r =
        reasonCount s.filter_reasons r + 1) ∧
    ((generate_signal { GenState.init with previous_delta := -100, delta_history := [0] }
        ⟨100, 100, 100, ⟨0, 0, 100, 100⟩, none, some ⟨1, 0, "ask", 100, 5⟩, 0,
          "calm", none, true⟩ 100).2.isSome = true) := by
  refine ⟨?_, ?_, ?_, ?_, ?_⟩
  · intro s ms now h
    unfold generate_signal
    dsimp only
    rw [check_buy_regime_none (update_state s ms now) ms now h]
    exact check_sell_regime_none _ ms now h
  · intro s ms h
    unfold check_regime_filter
    rw [if_pos (beq_iff_eq.mpr h)]
  · intro s ms h hs
    unfold check_regime_filter
    rw [if_neg (fun hbe => h (eq_of_beq hbe)), hs]
    rfl
  · exact fun s r => ⟨rfl, reasonCount_bumpReason s.filter_reasons r⟩
  · have hs1 : ¬("calm" = "extreme") := by decide
    norm_num [generate_signal, update_state, trackSweep, trackAbsorption, trackDeltaFlip,
      trackPriceReclaim, appendMax, check_buy_signal, check_regime_filter, record_filter,
      bumpReason, sweepDirIs, buy_alternative_path, generate_buy_signal_no_sweep,
      generate_buy_signal_with_sweep, emitSignal, reset_state, levelsOf, atrTruthy,
      GenState.init, COOLDOWN_SECONDS, MIN_DELTA_FLIP, listMinD, listMaxD, hs1]

/-- Witness for `C6_regime_gate`: an extreme-volatility tick emits
nothing, and a recorded rejection bumps both counters. -/
theorem C6_regime_gate_witness :
    (generate_signal GenState.init
      ⟨0, 0, 0, ⟨0, 0, 0, 0⟩, none, none, 0, "extreme", none, true⟩ 10).2 = none ∧
    ((record_filter GenState.init "extreme_volatility").signals_filtered =
        GenState.init.signals_filtered + 1 ∧
      reasonCount (record_filter GenState.init "extreme_volatility").filter_reasons
          "extreme_volatility" =
        reasonCount GenState.init.filter_reasons "extreme_volatility" + 1) :=
  ⟨C6_regime_gate.1 GenState.init
      ⟨0, 0, 0, ⟨0, 0, 0, 0⟩, none, none, 0, "extreme", none, true⟩ 10 (Or.inl rfl),
   C6_regime_gate.2.2.2.1 GenState.init "extreme_volatility"⟩

/-! ### Signal pattern field (claim C8) -/

/-- C8: the claim states every emitted signal carries a `pattern` field
in {sweep, no_sweep}.  A signal emitted through the sweep-confirmed
path carries no `pattern` key at all (modelled as `pattern = none`):
here a concrete tick emits through that path and the emitted signal's
pattern is absent, not `sweep`. -/
theorem C8_counterexample :
    Option.map Signal.pattern
      (generate_signal { GenState.init with previous_delta := -100, delta_history := [0] }
        ⟨100, 100, 100, ⟨0, 0, 100, 100⟩, some ⟨"down", 2, 6000, [99, 100], 50, true⟩,
         none, 0, "normal", none, true⟩ 100).2 = some none := by
  have hs1 : ¬("normal" = "extreme") := by decide
  norm_num [generate_signal, update_state, trackSweep, trackAbsorption, trackDeltaFlip,
    trackPriceReclaim, appendMax, check_buy_signal, check_regime_filter, record_filter,
    bumpReason, sweepDirIs, buy_alternative_path, generate_buy_signal_no_sweep,
    generate_buy_signal_with_sweep, emitSignal, reset_state, levelsOf, atrTruthy,
    GenState.init, COOLDOWN_SECONDS, MIN_DELTA_FLIP, listMinD, listMaxD, hs1]

/-- C8 (amended): every emitted signal either carries
`pattern = no_sweep` with `sweep_levels = 0` (alternative path) or has
no `pattern` field at all (sweep-confirmed path); the primary path does
not set `pattern = sweep`. -/
theorem C8_pattern_field :
    (∀ (s : GenState) (ms : MarketState) (now : ℚ) (sig : Signal),
      (generate_signal s ms now).2 = some sig →
      sig.pattern = none ∨ sig.pattern = some "no_sweep" ∧ sig.sweep_levels = 0) ∧
    (∀ (s : GenState) (ms : MarketState) (now : ℚ) (sig : Signal),
      (generate_buy_signal_no_sweep s ms now).2 = some sig →
      sig.pattern = some "no_sweep" ∧ sig.sweep_levels = 0) ∧
    (∀ (s : GenState) (ms : MarketState) (now : ℚ) (sig : Signal),
      (generate_sell_signal_no_sweep s ms now).2 = some sig →
      sig.pattern = some "no_sweep" ∧ sig.sweep_levels = 0) ∧
    (∀ (s : GenState) (ms : MarketState) (now : ℚ) (sig : Signal),
      (generate_buy_signal_with_sweep s ms now).2 = some sig → sig.pattern = none) ∧
    (∀ (s : GenState) (ms : MarketState) (now : ℚ) (sig : Signal),
      (generate_sell_signal_with_sweep s ms now).2 = some sig → sig.pattern = none) := by
  refine ⟨?_, ?_, ?_, ?_, ?_⟩
  · intro s ms now sig h
    rcases generate_signal_cases s ms now with ⟨st, heq, _⟩ | ⟨_, sig2, st, heq, _, hp⟩
    · rw [heq] at h
      exact absurd h (by simp)
    · rw [heq] at h
      simp only [Option.some.injEq] at h
      subst h
      exact hp
  · intro s ms now sig h
    rcases gbns_cases s ms now with heq | ⟨sig2, heq, hp⟩
    · rw [heq] at h
      exact absurd h (by simp)
    · rw [heq] at h
      simp only [Option.some.injEq] at h
      subst h
      exact hp
  · intro s ms now sig h
    rcases gsns_cases s ms now with heq | ⟨sig2, heq, hp⟩
    · rw [heq] at h
      exact absurd h (by simp)
    · rw [heq] at h
      simp only [Option.some.injEq] at h
      subst h
      exact hp
  · intro s ms now sig h
    rcases gbws_cases s ms now with heq | ⟨sig2, heq, hp⟩
    · rw [heq] at h
      exact absurd h (by simp)
    · rw [heq] at h
      simp only [Option.some.injEq] at h
      subst h
      exact hp
  · intro s ms now sig h
    rcases gsws_cases s ms now with heq | ⟨sig2, heq, hp⟩
    · rw [heq] at h
      exact absurd h (by simp)
    · rw [heq] at h
      simp only [Option.some.injEq] at h
      subst h
      exact hp

/-- Witness for `C8_pattern_field`: concrete emissions through the
no-sweep path (pattern `no_sweep`, zero levels) and through the
sweep-confirmed path (pattern absent). -/
theorem C8_pattern_field_witness :
    (∃ sig : Signal,
      (generate_buy_signal_no_sweep
        { GenState.init with delta_flip := .bullish, absorption_detected := true }
        ⟨100, 100, 100, ⟨0, 0, 0, 0⟩, none, none, 0, "calm", none, true⟩ 100).2 = some sig ∧
      sig.pattern = some "no_sweep" ∧ sig.sweep_levels = 0) ∧
    (∃ sig : Signal,
      (generate_buy_signal_with_sweep
        { GenState.init with
          recent_sweep := some (⟨"down", 2, 6000, [99, 100], 50, true⟩ : Sweep),
          delta_flip := .bullish }
        ⟨100, 100, 100, ⟨0, 0, 0, 0⟩, none, none, 0, "calm", none, true⟩ 100).2 = some sig ∧
      sig.pattern = none) := by
  constructor
  · have hsome : (generate_buy_signal_no_sweep
        { GenState.init with delta_flip := .bullish, absorption_detected := true }
        ⟨100, 100, 100, ⟨0, 0, 0, 0⟩, none, none, 0, "calm", none, true⟩ 100).2.isSome = true := by
      norm_num [generate_buy_signal_no_sweep, emitSignal, reset_state, GenState.init,
        MIN_DELTA_FLIP]
    obtain ⟨sig, hsig⟩ := Option.isSome_iff_exists.mp hsome
    exact ⟨sig, hsig, C8_pattern_field.2.1 _ _ _ _ hsig⟩
  · have hsome : (generate_buy_signal_with_sweep
        { GenState.init with
          recent_sweep := some (⟨"down", 2, 6000, [99, 100], 50, true⟩ : Sweep),
          delta_flip := .bullish }
        ⟨100, 100, 100, ⟨0, 0, 0, 0⟩, none, none, 0, "calm", none, true⟩ 100).2.isSome = true := by
      norm_num [generate_buy_signal_with_sweep, emitSignal, reset_state, levelsOf,
        GenState.init]
    obtain ⟨sig, hsig⟩ := Option.isSome_iff_exists.mp hsome
    exact ⟨sig, hsig, C8_pattern_field.2.2.2.1 _ _ _ _ hsig⟩

end Bot
